import Mathlib

/-!
Shallow embedding of `src/deepl/adapter.py`, a minimal client for the DeepL
translation HTTP API.  The module defines an abstract `Adapter` holding the
shared configuration (authentication key, tier flag, the two fixed base URLs
and the API version) and two concrete adapters, `RequestsAdapter` (blocking)
and `AiohttpAdapter` (non-blocking), whose `request` methods build the URL,
inject the authentication key into the payload dict, dispatch the HTTP call,
decode the JSON body and map non-2xx statuses to a closed error taxonomy.

Modelling conventions:
  - Python dicts of string parameters are association lists (`Dict`) with
    Python assignment semantics (`dictSet` overwrites in place or appends).
  - Decoded JSON values are the inductive `Json`; the transport collaborator
    (the requests / aiohttp library) is a function from the dispatched
    request to an `HttpResponse` whose `jsonBody` field is the outcome of
    the best-effort JSON decode: `none` models a `JSONDecodeError` on an
    empty or invalid body, exactly the exception the source catches.
  - `raise` is embedded as `Except.error`; `PyError` covers the typed
    errors of the errors module, the `AttributeError` that `data.get`
    raises on a non-dict, and the generic access errors of subscripting.
  - In-place mutation of the caller-supplied payload dict is made explicit:
    `request` returns, besides the dispatched request and the outcome, the
    contents `payloadAfter` of the payload dict after the call.  Python
    evaluates the default value `payload: dict = \x7b\x7d` once, so calls that
    omit the payload share one container: that container is threaded as an
    explicit `Dict` state through `get_usage` / `get_supported_languages`.
-/

/-- Decoded JSON value, as produced by `resp.json()`. -/
inductive Json where
  | null : Json
  | bool : Bool → Json
  | num : Int → Json
  | str : String → Json
  | arr : List Json → Json
  | obj : List (String × Json) → Json

/-- Python truthiness of a decoded JSON value (`if data:`):
`None`, `False`, `0`, the empty string, the empty list and the empty dict
are falsy, everything else truthy. -/
def Json.truthy : Json → Bool
  | Json.null => false
  | Json.bool b => b
  | Json.num n => n != 0
  | Json.str s => s != ""
  | Json.arr xs => !xs.isEmpty
  | Json.obj kvs => !kvs.isEmpty

/-- Whether a decoded JSON value is a dict (the only values with a `.get`
attribute). -/
def Json.isObj : Json → Bool
  | Json.obj _ => true
  | _ => false

/-- Lookup of a key in a decoded JSON object (Python `dict` lookup; keys of
a decoded object are unique, so first match suffices). -/
def jsonGet : List (String × Json) → String → Option Json
  | [], _ => none
  | kv :: rest, k => if kv.1 == k then some kv.2 else jsonGet rest k

/-- Python dict of string parameters, as an insertion-ordered association
list with unique keys. -/
abbrev Dict := List (String × String)

/-- Dict lookup (first match). -/
def dictGet : Dict → String → Option String
  | [], _ => none
  | kv :: rest, k => if kv.1 == k then some kv.2 else dictGet rest k

/-- Whether a dict contains a key. -/
def dictHasKey : Dict → String → Bool
  | [], _ => false
  | kv :: rest, k => kv.1 == k || dictHasKey rest k

/-- Replace the value of an existing key, keeping its position. -/
def dictOverwrite : Dict → String → String → Dict
  | [], _, _ => []
  | kv :: rest, k, v =>
      (if kv.1 == k then (k, v) else kv) :: dictOverwrite rest k v

/-- Python dict assignment `d[k] = v`: overwrite in place when the key is
present, append otherwise. -/
def dictSet (d : Dict) (k v : String) : Dict :=
  if dictHasKey d k then dictOverwrite d k v else d ++ [(k, v)]

/-- The errors module exposes one exception kind per HTTP status bucket. -/
inductive ErrKind where
  | badRequest
  | forbidden
  | notFound
  | payloadTooLarge
  | uriTooLong
  | tooManyRequests
  | quotaExceeded
  | serviceUnavailable
  | internalServerError
  | httpException
deriving DecidableEq, Repr

/-- Response of the HTTP transport collaborator: the status code and the
outcome of the best-effort JSON decode of the body (`none` models the
`JSONDecodeError` raised on an empty or invalid body). -/
structure HttpResponse where
  status : Nat
  jsonBody : Option Json

/-- An exception escaping `request` or a convenience operation: a typed
error of the closed taxonomy carrying the response handle and the provider
message, the `AttributeError` raised by `data.get` on a non-dict decoded
body, or a generic access error from subscripting a malformed body. -/
inductive PyError where
  | typed : ErrKind → HttpResponse → Json → PyError
  | attributeError : PyError
  | accessError : PyError

/-- The HTTP request as dispatched to the transport. -/
structure SentRequest where
  method : String
  url : String
  params : Dict
  headers : List (String × String)

/-- The transport collaborator: called exactly once per `request` with the
dispatched request, it yields the HTTP response. -/
abbrev Transport := SentRequest → HttpResponse

/-- Result of one `request` call: the dispatched request, the outcome
(returned decoded body, or raised error), and the contents of the payload
dict after the call (the same container the caller passed in, mutated by
the auth-key injection). -/
structure RequestResult where
  sent : SentRequest
  outcome : Except PyError (Option Json)
  payloadAfter : Dict

/-- Line 56 / 110: `message = data.get('message', '') if data else ''`.
On a truthy non-dict decoded body, `.get` does not exist and Python raises
`AttributeError`. -/
def pyGetMessage : Option Json → Except PyError Json
  | none => Except.ok (Json.str "")
  | some d =>
      if d.truthy then
        match d with
        | Json.obj kvs => Except.ok ((jsonGet kvs "message").getD (Json.str ""))
        | _ => Except.error PyError.attributeError
      else
        Except.ok (Json.str "")

/-- Shared configuration set by `Adapter.__init__` (lines 14-19). -/
structure Adapter where
  base_url_free : String
  base_url_pro : String
  api_version : String
  auth_key : String
  pro : Bool

/-- `Adapter.__init__(authentication_key, *, pro=False)`: stores the two
fixed base URLs, the API version, the key and the tier flag. -/
def Adapter.init (authentication_key : String) (pro : Bool) : Adapter :=
  { base_url_free := "https://api-free.deepl.com/"
    base_url_pro := "https://api.deepl.com/"
    api_version := "v2"
    auth_key := authentication_key
    pro := pro }

/-- `RequestsAdapter.request` (lines 40-76): builds the header dict and the
URL, injects `auth_key` into the payload (mutating it), dispatches, then
returns the decoded body on 2xx; on any other status it extracts the
provider message from the decoded body and raises the typed error of the
status cascade. -/
def RequestsAdapter.request (a : Adapter) (transport : Transport)
    (method path : String) (payload : Dict) : RequestResult :=
  let headers : List (String × String) := [("content-type", "x-www-form-urlencoded")]
  let payload2 := dictSet payload "auth_key" a.auth_key
  let url := (if a.pro then a.base_url_pro else a.base_url_free) ++ (a.api_version ++ path)
  let sent : SentRequest := { method := method, url := url, params := payload2, headers := headers }
  let resp := transport sent
  let data := resp.jsonBody
  let status_code := resp.status
  let outcome : Except PyError (Option Json) :=
    if 200 ≤ status_code ∧ status_code < 300 then
      Except.ok data
    else
      match pyGetMessage data with
      | Except.error e => Except.error e
      | Except.ok message =>
          Except.error (PyError.typed
            (if status_code == 400 then ErrKind.badRequest
             else if status_code == 403 then ErrKind.forbidden
             else if status_code == 404 then ErrKind.notFound
             else if status_code == 413 then ErrKind.payloadTooLarge
             else if status_code == 414 then ErrKind.uriTooLong
             else if status_code == 429 then ErrKind.tooManyRequests
             else if status_code == 456 then ErrKind.quotaExceeded
             else if status_code == 503 then ErrKind.serviceUnavailable
             else if 500 ≤ status_code ∧ status_code < 600 then ErrKind.internalServerError
             else ErrKind.httpException)
            resp message)
  { sent := sent, outcome := outcome, payloadAfter := payload2 }

/-- `AiohttpAdapter.request` (lines 93-130): textually the same request
building and error mapping as the blocking adapter; the cooperative
suspension at the network boundary is not observable in the embedding. -/
def AiohttpAdapter.request (a : Adapter) (transport : Transport)
    (method path : String) (payload : Dict) : RequestResult :=
  let headers : List (String × String) := [("content-type", "x-www-form-urlencoded")]
  let payload2 := dictSet payload "auth_key" a.auth_key
  let url := (if a.pro then a.base_url_pro else a.base_url_free) ++ (a.api_version ++ path)
  let sent : SentRequest := { method := method, url := url, params := payload2, headers := headers }
  let resp := transport sent
  let data := resp.jsonBody
  let status_code := resp.status
  let outcome : Except PyError (Option Json) :=
    if 200 ≤ status_code ∧ status_code < 300 then
      Except.ok data
    else
      match pyGetMessage data with
      | Except.error e => Except.error e
      | Except.ok message =>
          Except.error (PyError.typed
            (if status_code == 400 then ErrKind.badRequest
             else if status_code == 403 then ErrKind.forbidden
             else if status_code == 404 then ErrKind.notFound
             else if status_code == 413 then ErrKind.payloadTooLarge
             else if status_code == 414 then ErrKind.uriTooLong
             else if status_code == 429 then ErrKind.tooManyRequests
             else if status_code == 456 then ErrKind.quotaExceeded
             else if status_code == 503 then ErrKind.serviceUnavailable
             else if 500 ≤ status_code ∧ status_code < 600 then ErrKind.internalServerError
             else ErrKind.httpException)
            resp message)
  { sent := sent, outcome := outcome, payloadAfter := payload2 }

/-- Python subscripting `j[k]` of a decoded value by a string key: a
lookup on a dict, a generic access error (`TypeError` / `KeyError`)
otherwise. -/
def pySubscript (j : Json) (k : String) : Except PyError Json :=
  match j with
  | Json.obj kvs =>
      match jsonGet kvs k with
      | some v => Except.ok v
      | none => Except.error PyError.accessError
  | _ => Except.error PyError.accessError

/-- Python subscripting `j[i]` of a decoded value by an index: a list
access when in range, a generic access error otherwise. -/
def pyIndex (j : Json) (i : Nat) : Except PyError Json :=
  match j with
  | Json.arr xs =>
      match xs.get? i with
      | some v => Except.ok v
      | none => Except.error PyError.accessError
  | _ => Except.error PyError.accessError

/-- Result of a convenience operation returning a value extracted from the
body: the dispatched request, the extracted value or raised error, and the
payload dict contents after the call. -/
structure TextCallResult where
  sent : SentRequest
  result : Except PyError Json
  payloadAfter : Dict

/-- `RequestsAdapter.get_translated_text` (lines 78-80): POST to
`/translate`, then `data['translations'][0]['text']`; a raised error of
`request` propagates, and a malformed success body fails with a generic
access error. -/
def RequestsAdapter.get_translated_text (a : Adapter) (transport : Transport)
    (payload : Dict) : TextCallResult :=
  let r := RequestsAdapter.request a transport "POST" "/translate" payload
  let v : Except PyError Json :=
    match r.outcome with
    | Except.error e => Except.error e
    | Except.ok none => Except.error PyError.accessError
    | Except.ok (some d) =>
        (pySubscript d "translations").bind (fun x =>
          (pyIndex x 0).bind (fun y => pySubscript y "text"))
  { sent := r.sent, result := v, payloadAfter := r.payloadAfter }

/-- `AiohttpAdapter.get_translated_text` (lines 132-134): same extraction
through the non-blocking adapter. -/
def AiohttpAdapter.get_translated_text (a : Adapter) (transport : Transport)
    (payload : Dict) : TextCallResult :=
  let r := AiohttpAdapter.request a transport "POST" "/translate" payload
  let v : Except PyError Json :=
    match r.outcome with
    | Except.error e => Except.error e
    | Except.ok none => Except.error PyError.accessError
    | Except.ok (some d) =>
        (pySubscript d "translations").bind (fun x =>
          (pyIndex x 0).bind (fun y => pySubscript y "text"))
  { sent := r.sent, result := v, payloadAfter := r.payloadAfter }

/-- `RequestsAdapter.get_usage` (lines 82-84): `request('POST', '/usage')`
with the payload argument omitted.  Python evaluated the default value
`\x7b\x7d` once at definition time, so every such call reuses one shared dict;
its current contents are the explicit `defaultState` argument and its
contents after the call are `payloadAfter` of the result. -/
def RequestsAdapter.get_usage (a : Adapter) (transport : Transport)
    (defaultState : Dict) : RequestResult :=
  RequestsAdapter.request a transport "POST" "/usage" defaultState

/-- `RequestsAdapter.get_supported_languages` (lines 86-88): same shared
default dict as `get_usage`. -/
def RequestsAdapter.get_supported_languages (a : Adapter) (transport : Transport)
    (defaultState : Dict) : RequestResult :=
  RequestsAdapter.request a transport "POST" "/languages" defaultState

/-- `AiohttpAdapter.get_usage` (lines 136-138). -/
def AiohttpAdapter.get_usage (a : Adapter) (transport : Transport)
    (defaultState : Dict) : RequestResult :=
  AiohttpAdapter.request a transport "POST" "/usage" defaultState

/-- `AiohttpAdapter.get_supported_languages` (lines 140-142). -/
def AiohttpAdapter.get_supported_languages (a : Adapter) (transport : Transport)
    (defaultState : Dict) : RequestResult :=
  AiohttpAdapter.request a transport "POST" "/languages" defaultState

/-! Spec-side definitions, written from the words of the specification, to be
compared with the behaviour of the embedded code. -/

/-- The status cascade of the source (lines 57-76 / 111-130), as a function of
the status code, for stating characterisation lemmas about `request`. -/
def cascadeKindOf (status_code : Nat) : ErrKind :=
  if status_code == 400 then ErrKind.badRequest
  else if status_code == 403 then ErrKind.forbidden
  else if status_code == 404 then ErrKind.notFound
  else if status_code == 413 then ErrKind.payloadTooLarge
  else if status_code == 414 then ErrKind.uriTooLong
  else if status_code == 429 then ErrKind.tooManyRequests
  else if status_code == 456 then ErrKind.quotaExceeded
  else if status_code == 503 then ErrKind.serviceUnavailable
  else if 500 ≤ status_code ∧ status_code < 600 then ErrKind.internalServerError
  else ErrKind.httpException

/-- The closed taxonomy of the specification (section 7): one kind per exact
status in 400, 403, 404, 413, 414, 429, 456, 503; InternalServerError for any
other status in the range 500 to 599; the generic HTTPException for any other
non-2xx status. -/
def specKindOf (s : Nat) : ErrKind :=
  if s = 400 then ErrKind.badRequest
  else if s = 403 then ErrKind.forbidden
  else if s = 404 then ErrKind.notFound
  else if s = 413 then ErrKind.payloadTooLarge
  else if s = 414 then ErrKind.uriTooLong
  else if s = 429 then ErrKind.tooManyRequests
  else if s = 456 then ErrKind.quotaExceeded
  else if s = 503 then ErrKind.serviceUnavailable
  else if 500 ≤ s ∧ s < 600 then ErrKind.internalServerError
  else ErrKind.httpException

/-- The message the specification promises on an error: the `message` field of
the decoded body when present, else the empty string. -/
def specMessageOf : Option Json → Json
  | some (Json.obj kvs) => (jsonGet kvs "message").getD (Json.str "")
  | _ => Json.str ""

/-- Decoded bodies on which the message extraction of line 56 / 110 is total:
an absent body, a dict, or any falsy value.  A truthy non-dict body makes
`data.get` raise `AttributeError`. -/
def messageSafe : Option Json → Bool
  | none => true
  | some j => !j.truthy || j.isObj

/-- The request shape the specification prescribes for a call under a
configuration of key and tier flag: the caller method, the URL composed of
the tier base URL, the API version and the path, the caller parameters with
the injected auth key, and the form content-type header. -/
def sentOf (key : String) (pro : Bool) (method path : String) (payload : Dict) :
    SentRequest :=
  { method := method
    url := (if pro then "https://api.deepl.com/" else "https://api-free.deepl.com/")
             ++ ("v2" ++ path)
    params := dictSet payload "auth_key" key
    headers := [("content-type", "x-www-form-urlencoded")] }

/-- The base URL the tier flag selects once at construction. -/
def constructionBaseURL (pro : Bool) : String :=
  if pro then "https://api.deepl.com/" else "https://api-free.deepl.com/"

/-- Field access on a decoded value, absent unless the value is a dict with
the key. -/
def jsonSub (j : Json) (k : String) : Option Json :=
  match j with
  | Json.obj kvs => jsonGet kvs k
  | _ => none

/-- Element access on a decoded value, absent unless the value is a list with
the index in range. -/
def jsonIdx (j : Json) (i : Nat) : Option Json :=
  match j with
  | Json.arr xs => xs.get? i
  | _ => none

/-- The text of the first element of the `translations` sequence of a decoded
response body, as the specification describes the value returned by
`get_translated_text`. -/
def firstTranslationText (body : Json) : Option Json :=
  (jsonSub body "translations").bind (fun x => (jsonIdx x 0).bind (fun y => jsonSub y "text"))

/-- Whether an outcome of `request` is a raised error of the typed taxonomy
(as opposed to a return or to an untyped Python error). -/
def raisesTypedError (o : Except PyError (Option Json)) : Bool :=
  match o with
  | Except.error (PyError.typed _ _ _) => true
  | _ => false

/-- The outcome of `request` as a function of the transport response alone:
return the decoded body on 2xx, otherwise extract the message and raise the
typed error of the status cascade.  Proved equal to the outcome of both
embedded `request` bodies below. -/
def respOutcome (resp : HttpResponse) : Except PyError (Option Json) :=
  if 200 ≤ resp.status ∧ resp.status < 300 then
    Except.ok resp.jsonBody
  else
    match pyGetMessage resp.jsonBody with
    | Except.error e => Except.error e
    | Except.ok message => Except.error (PyError.typed (cascadeKindOf resp.status) resp message)

/-! Concrete stub transports and bodies used by counterexamples and
witnesses. -/

/-- Stub transport: status 200, empty JSON object body. -/
def stubOkT : Transport := fun _ => { status := 200, jsonBody := some (Json.obj []) }

/-- Stub transport: status 400 with a body that decodes to a non-empty JSON
list. -/
def stub400ListT : Transport := fun _ => { status := 400, jsonBody := some (Json.arr [Json.num 1]) }

/-- Stub transport: status 404 with a body that decodes to a non-empty JSON
list. -/
def stub404ListT : Transport := fun _ => { status := 404, jsonBody := some (Json.arr [Json.str "e"]) }

/-- Stub transport: status 503 with a dict body carrying a message. -/
def stub503T : Transport :=
  fun _ => { status := 503, jsonBody := some (Json.obj [("message", Json.str "busy")]) }

/-- Stub transport: status 204 with an empty (undecodable) body. -/
def stub204T : Transport := fun _ => { status := 204, jsonBody := none }

/-- The stub translate response body of the specification. -/
def stubTranslationBody : Json :=
  Json.obj [("translations", Json.arr [Json.obj [("text", Json.str "Hallo")]])]

/-- Stub transport: status 200 with the stub translate response body. -/
def stubTranslateT : Transport := fun _ => { status := 200, jsonBody := some stubTranslationBody }

/-! Helper lemmas. -/

/-- The request the blocking adapter dispatches is the one the specification
prescribes. -/
theorem requests_sent_eq (key : String) (pro : Bool) (t : Transport) (m p : String) (d : Dict) :
    (RequestsAdapter.request (Adapter.init key pro) t m p d).sent = sentOf key pro m p d := rfl

/-- The request the non-blocking adapter dispatches is the one the
specification prescribes. -/
theorem aiohttp_sent_eq (key : String) (pro : Bool) (t : Transport) (m p : String) (d : Dict) :
    (AiohttpAdapter.request (Adapter.init key pro) t m p d).sent = sentOf key pro m p d := rfl

/-- The outcome of the blocking `request` is a function of the transport
response to the dispatched request. -/
theorem requests_outcome_eq (key : String) (pro : Bool) (t : Transport) (m p : String) (d : Dict) :
    (RequestsAdapter.request (Adapter.init key pro) t m p d).outcome
      = respOutcome (t (sentOf key pro m p d)) := rfl

/-- The outcome of the non-blocking `request` is the same function of the
transport response. -/
theorem aiohttp_outcome_eq (key : String) (pro : Bool) (t : Transport) (m p : String) (d : Dict) :
    (AiohttpAdapter.request (Adapter.init key pro) t m p d).outcome
      = respOutcome (t (sentOf key pro m p d)) := rfl

/-- The payload dict after a blocking `request` call is the caller dict with
the auth key assigned. -/
theorem requests_payloadAfter_eq (key : String) (pro : Bool) (t : Transport) (m p : String)
    (d : Dict) :
    (RequestsAdapter.request (Adapter.init key pro) t m p d).payloadAfter
      = dictSet d "auth_key" key := rfl

/-- The payload dict after a non-blocking `request` call is the caller dict
with the auth key assigned. -/
theorem aiohttp_payloadAfter_eq (key : String) (pro : Bool) (t : Transport) (m p : String)
    (d : Dict) :
    (AiohttpAdapter.request (Adapter.init key pro) t m p d).payloadAfter
      = dictSet d "auth_key" key := rfl

/-- Assigning a key makes it present with the assigned value. -/
theorem dictGet_dictSet_self (d : Dict) (k v : String) :
    dictGet (dictSet d k v) k = some v := by
  unfold dictSet
  by_cases hk : dictHasKey d k = true
  · rw [if_pos hk]
    induction d with
    | nil => simp [dictHasKey] at hk
    | cons kv rest ih =>
        by_cases hh : kv.1 = k
        · simp [dictOverwrite, dictGet, hh]
        · have hr : dictHasKey rest k = true := by
            simpa [dictHasKey, hh] using hk
          simp [dictOverwrite, dictGet, hh, ih hr]
  · rw [if_neg hk]
    induction d with
    | nil => simp [dictGet]
    | cons kv rest ih =>
        have hh : ¬ kv.1 = k := by
          intro h
          exact hk (by simp [dictHasKey, h])
        have hr : ¬ dictHasKey rest k = true := by
          intro h
          exact hk (by simp [dictHasKey, h])
        simp [dictGet, hh, ih hr]

/-- Overwriting a key leaves every other key unchanged. -/
theorem dictGet_dictOverwrite_of_ne (d : Dict) (k v k2 : String) (h : k2 ≠ k) :
    dictGet (dictOverwrite d k v) k2 = dictGet d k2 := by
  induction d with
  | nil => rfl
  | cons kv rest ih =>
      by_cases hh : kv.1 = k
      · have hne : ¬ (k = k2) := fun hx => h hx.symm
        have hne2 : ¬ kv.1 = k2 := by rw [hh]; exact hne
        simp [dictOverwrite, dictGet, hh, hne, hne2, ih]
      · by_cases hh2 : kv.1 = k2
        · simp [dictOverwrite, dictGet, hh, hh2, h]
        · simp [dictOverwrite, dictGet, hh, hh2, ih]

/-- Appending a fresh key leaves every other key unchanged. -/
theorem dictGet_append_single_of_ne (d : Dict) (k v k2 : String) (h : k2 ≠ k) :
    dictGet (d ++ [(k, v)]) k2 = dictGet d k2 := by
  induction d with
  | nil =>
      have hne : ¬ (k = k2) := fun hx => h hx.symm
      simp [dictGet, hne]
  | cons kv rest ih =>
      by_cases hh2 : kv.1 = k2
      · simp [dictGet, hh2]
      · simp [dictGet, hh2, ih]

/-- Assigning a key leaves every other key unchanged. -/
theorem dictGet_dictSet_of_ne (d : Dict) (k v k2 : String) (h : k2 ≠ k) :
    dictGet (dictSet d k v) k2 = dictGet d k2 := by
  unfold dictSet
  by_cases hk : dictHasKey d k = true
  · rw [if_pos hk]
    exact dictGet_dictOverwrite_of_ne d k v k2 h
  · rw [if_neg hk]
    exact dictGet_append_single_of_ne d k v k2 h

/-- The status cascade of the source agrees with the closed taxonomy table of
the specification at every status code. -/
theorem cascadeKindOf_eq_specKindOf (s : Nat) : cascadeKindOf s = specKindOf s := by
  simp only [cascadeKindOf, specKindOf, Nat.beq_eq_true_eq]

/-- On a body where the extraction is total, line 56 / 110 computes exactly
the message the specification promises. -/
theorem pyGetMessage_of_messageSafe (b : Option Json) (h : messageSafe b = true) :
    pyGetMessage b = Except.ok (specMessageOf b) := by
  cases b with
  | none => rfl
  | some j =>
      cases j with
      | null => rfl
      | bool v => cases v <;> simp_all [pyGetMessage, specMessageOf, Json.truthy, messageSafe, Json.isObj]
      | num n =>
          by_cases hn : n = 0
          · simp [pyGetMessage, specMessageOf, Json.truthy, hn]
          · simp_all [messageSafe, Json.truthy, Json.isObj, hn]
      | str s =>
          by_cases hs : s = ""
          · simp [pyGetMessage, specMessageOf, Json.truthy, hs]
          · simp_all [messageSafe, Json.truthy, Json.isObj, hs]
      | arr xs =>
          cases xs with
          | nil => rfl
          | cons x rest => simp_all [messageSafe, Json.truthy, Json.isObj]
      | obj kvs =>
          cases kvs with
          | nil => rfl
          | cons kv rest =>
              simp [pyGetMessage, specMessageOf, Json.truthy]

/-- On a 2xx response the outcome is the decoded body, unchanged. -/
theorem respOutcome_of_2xx (resp : HttpResponse)
    (h1 : 200 ≤ resp.status) (h2 : resp.status < 300) :
    respOutcome resp = Except.ok resp.jsonBody := by
  unfold respOutcome
  rw [if_pos ⟨h1, h2⟩]

/-- On a non-2xx response whose body admits the message extraction, the
outcome is the typed error of the taxonomy with the promised message. -/
theorem respOutcome_of_err (resp : HttpResponse)
    (hs : ¬ (200 ≤ resp.status ∧ resp.status < 300))
    (hm : messageSafe resp.jsonBody = true) :
    respOutcome resp
      = Except.error (PyError.typed (specKindOf resp.status) resp (specMessageOf resp.jsonBody)) := by
  unfold respOutcome
  rw [if_neg hs, pyGetMessage_of_messageSafe resp.jsonBody hm, cascadeKindOf_eq_specKindOf]

/-- On a non-2xx response whose body decodes to a non-empty list, the message
extraction raises `AttributeError` and no typed error is reached. -/
theorem respOutcome_of_list_body (resp : HttpResponse)
    (hs : ¬ (200 ≤ resp.status ∧ resp.status < 300))
    (x : Json) (xs : List Json) (hb : resp.jsonBody = some (Json.arr (x :: xs))) :
    respOutcome resp = Except.error PyError.attributeError := by
  unfold respOutcome
  rw [if_neg hs, hb]
  rfl

/-- The raising subscript of the source agrees with the absent-value field
access everywhere. -/
theorem pySubscript_eq_jsonSub (j : Json) (k : String) :
    pySubscript j k
      = match jsonSub j k with
        | some v => Except.ok v
        | none => Except.error PyError.accessError := by
  cases j <;> rfl

/-- The raising index of the source agrees with the absent-value element
access everywhere. -/
theorem pyIndex_eq_jsonIdx (j : Json) (i : Nat) :
    pyIndex j i
      = match jsonIdx j i with
        | some v => Except.ok v
        | none => Except.error PyError.accessError := by
  cases j <;> rfl

/-- A body on which the navigation of the specification yields a first
translation text makes the subscript chain of the source return it. -/
theorem subscript_chain_of_firstTranslationText (body txt : Json)
    (h : firstTranslationText body = some txt) :
    (pySubscript body "translations").bind (fun x =>
      (pyIndex x 0).bind (fun y => pySubscript y "text")) = Except.ok txt := by
  unfold firstTranslationText at h
  obtain ⟨x, hx, h2⟩ := Option.bind_eq_some.mp h
  obtain ⟨y, hy, h3⟩ := Option.bind_eq_some.mp h2
  simp only [pySubscript_eq_jsonSub, pyIndex_eq_jsonIdx, hx, hy, h3, Except.bind]

/-! The claims. -/

/-- C1 (counterexample): the claim promises that every non-2xx status makes
`request` raise the typed error of the taxonomy.  At status 400 with a body
that decodes to the non-empty JSON list holding the number 1, both adapters
instead fail with the `AttributeError` of the message extraction, and no
typed error is raised. -/
theorem claim_C1_counterexample :
    raisesTypedError (RequestsAdapter.request (Adapter.init "KEY" false) stub400ListT
      "POST" "/translate" []).outcome = false ∧
    (RequestsAdapter.request (Adapter.init "KEY" false) stub400ListT
      "POST" "/translate" []).outcome = Except.error PyError.attributeError ∧
    raisesTypedError (AiohttpAdapter.request (Adapter.init "KEY" false) stub400ListT
      "POST" "/translate" []).outcome = false ∧
    (AiohttpAdapter.request (Adapter.init "KEY" false) stub400ListT
      "POST" "/translate" []).outcome = Except.error PyError.attributeError :=
  ⟨rfl, rfl, rfl, rfl⟩

/-- C1 (amended): for every non-2xx status observed by `request` on either
adapter, provided the decoded body is absent, falsy, or a mapping, `request`
raises exactly the typed error kind of the closed taxonomy for that status,
carrying the `message` field of the decoded body when present and the empty
string otherwise. -/
theorem claim_C1_amended (key : String) (pro : Bool) (t : Transport)
    (method path : String) (payload : Dict)
    (hs : ¬ (200 ≤ (t (sentOf key pro method path payload)).status ∧
             (t (sentOf key pro method path payload)).status < 300))
    (hm : messageSafe (t (sentOf key pro method path payload)).jsonBody = true) :
    (RequestsAdapter.request (Adapter.init key pro) t method path payload).outcome
      = Except.error (PyError.typed
          (specKindOf (t (sentOf key pro method path payload)).status)
          (t (sentOf key pro method path payload))
          (specMessageOf (t (sentOf key pro method path payload)).jsonBody)) ∧
    (AiohttpAdapter.request (Adapter.init key pro) t method path payload).outcome
      = Except.error (PyError.typed
          (specKindOf (t (sentOf key pro method path payload)).status)
          (t (sentOf key pro method path payload))
          (specMessageOf (t (sentOf key pro method path payload)).jsonBody)) := by
  refine ⟨?_, ?_⟩
  · rw [requests_outcome_eq, respOutcome_of_err _ hs hm]
  · rw [aiohttp_outcome_eq, respOutcome_of_err _ hs hm]

/-- C1 (witness): at status 503 with body decoding to a dict that carries
message busy, both adapters raise ServiceUnavailable carrying busy. -/
theorem claim_C1_amended_witness :
    (RequestsAdapter.request (Adapter.init "KEY" false) stub503T
      "POST" "/translate" []).outcome
      = Except.error (PyError.typed ErrKind.serviceUnavailable
          { status := 503, jsonBody := some (Json.obj [("message", Json.str "busy")]) }
          (Json.str "busy")) ∧
    (AiohttpAdapter.request (Adapter.init "KEY" false) stub503T
      "POST" "/translate" []).outcome
      = Except.error (PyError.typed ErrKind.serviceUnavailable
          { status := 503, jsonBody := some (Json.obj [("message", Json.str "busy")]) }
          (Json.str "busy")) := by
  have h := claim_C1_amended "KEY" false stub503T "POST" "/translate" []
    (by decide) (by rfl)
  exact ⟨h.1, h.2⟩

/-- C2: on any 2xx status both adapters return the decoded JSON body
unchanged; when the body was empty or not valid JSON (an absent decode),
that returned value is the absent value, and nothing is raised. -/
theorem claim_C2 (key : String) (pro : Bool) (t : Transport)
    (method path : String) (payload : Dict)
    (h1 : 200 ≤ (t (sentOf key pro method path payload)).status)
    (h2 : (t (sentOf key pro method path payload)).status < 300) :
    (RequestsAdapter.request (Adapter.init key pro) t method path payload).outcome
      = Except.ok ((t (sentOf key pro method path payload)).jsonBody) ∧
    (AiohttpAdapter.request (Adapter.init key pro) t method path payload).outcome
      = Except.ok ((t (sentOf key pro method path payload)).jsonBody) := by
  refine ⟨?_, ?_⟩
  · rw [requests_outcome_eq, respOutcome_of_2xx _ h1 h2]
  · rw [aiohttp_outcome_eq, respOutcome_of_2xx _ h1 h2]

/-- C2 (witness): a 204 response whose body does not decode is returned as
the absent value without raising, and a 200 response with a JSON body is
returned unchanged. -/
theorem claim_C2_witness :
    (RequestsAdapter.request (Adapter.init "KEY" false) stub204T
      "GET" "/usage" []).outcome = Except.ok none ∧
    (AiohttpAdapter.request (Adapter.init "KEY" false) stub204T
      "GET" "/usage" []).outcome = Except.ok none ∧
    (RequestsAdapter.request (Adapter.init "KEY" false) stubTranslateT
      "POST" "/translate" []).outcome = Except.ok (some stubTranslationBody) := by
  have ha := claim_C2 "KEY" false stub204T "GET" "/usage" [] (by decide) (by decide)
  have hb := claim_C2 "KEY" false stubTranslateT "POST" "/translate" []
    (by decide) (by decide)
  exact ⟨ha.1, ha.2, hb.1⟩

/-- C3: every call on either adapter dispatches to the URL composed of the
tier base URL, the API version and the path, with the form content-type
header, the caller method, and the caller parameters plus the injected
auth key bound to the configured authentication key. -/
theorem claim_C3 (key : String) (pro : Bool) (t : Transport)
    (method path : String) (payload : Dict) :
    (RequestsAdapter.request (Adapter.init key pro) t method path payload).sent.method
      = method ∧
    (RequestsAdapter.request (Adapter.init key pro) t method path payload).sent.url
      = (if pro then "https://api.deepl.com/" else "https://api-free.deepl.com/")
          ++ "v2" ++ path ∧
    (RequestsAdapter.request (Adapter.init key pro) t method path payload).sent.headers
      = [("content-type", "x-www-form-urlencoded")] ∧
    dictGet (RequestsAdapter.request (Adapter.init key pro) t method path payload).sent.params
      "auth_key" = some key ∧
    (∀ k2, k2 ≠ "auth_key" →
      dictGet (RequestsAdapter.request (Adapter.init key pro) t method path payload).sent.params k2
        = dictGet payload k2) ∧
    (AiohttpAdapter.request (Adapter.init key pro) t method path payload).sent.method
      = method ∧
    (AiohttpAdapter.request (Adapter.init key pro) t method path payload).sent.url
      = (if pro then "https://api.deepl.com/" else "https://api-free.deepl.com/")
          ++ "v2" ++ path ∧
    (AiohttpAdapter.request (Adapter.init key pro) t method path payload).sent.headers
      = [("content-type", "x-www-form-urlencoded")] ∧
    dictGet (AiohttpAdapter.request (Adapter.init key pro) t method path payload).sent.params
      "auth_key" = some key ∧
    (∀ k2, k2 ≠ "auth_key" →
      dictGet (AiohttpAdapter.request (Adapter.init key pro) t method path payload).sent.params k2
        = dictGet payload k2) := by
  refine ⟨rfl, ?_, rfl, ?_, ?_, rfl, ?_, rfl, ?_, ?_⟩
  · rw [String.append_assoc]
    rfl
  · exact dictGet_dictSet_self payload "auth_key" key
  · intro k2 hk2
    exact dictGet_dictSet_of_ne payload "auth_key" key k2 hk2
  · rw [String.append_assoc]
    rfl
  · exact dictGet_dictSet_self payload "auth_key" key
  · intro k2 hk2
    exact dictGet_dictSet_of_ne payload "auth_key" key k2 hk2

/-- C3 (witness): a free-tier call to the translate path with one caller
parameter dispatches to the free host with both the auth key and the
caller parameter present. -/
theorem claim_C3_witness :
    (RequestsAdapter.request (Adapter.init "KEY" false) stubOkT
      "POST" "/translate" [("text", "Hello")]).sent.url
      = "https://api-free.deepl.com/v2/translate" ∧
    dictGet (RequestsAdapter.request (Adapter.init "KEY" false) stubOkT
      "POST" "/translate" [("text", "Hello")]).sent.params "auth_key" = some "KEY" ∧
    dictGet (RequestsAdapter.request (Adapter.init "KEY" false) stubOkT
      "POST" "/translate" [("text", "Hello")]).sent.params "text" = some "Hello" := by
  have h := claim_C3 "KEY" false stubOkT "POST" "/translate" [("text", "Hello")]
  refine ⟨?_, h.2.2.2.1, ?_⟩
  · rw [h.2.1]
    rfl
  · rw [h.2.2.2.2.1 "text" (by decide)]
    rfl

/-- C4: for the same logical call under the same configuration, the blocking
and the non-blocking adapter produce identical request shapes (method, full
URL, header set and full parameter set with the injected auth key), and in
the embedding identical outcomes and payload effects altogether. -/
theorem claim_C4 (a : Adapter) (t : Transport) (method path : String) (payload : Dict) :
    (RequestsAdapter.request a t method path payload).sent
      = (AiohttpAdapter.request a t method path payload).sent ∧
    (RequestsAdapter.request a t method path payload).outcome
      = (AiohttpAdapter.request a t method path payload).outcome ∧
    (RequestsAdapter.request a t method path payload).payloadAfter
      = (AiohttpAdapter.request a t method path payload).payloadAfter :=
  ⟨rfl, rfl, rfl⟩

/-- C5: the base URL of every request an adapter instance dispatches is the
one the tier flag selected at construction: for every call, with any method,
path, payload and transport, the URL starts with the construction-time base,
so exactly one base URL is active for the lifetime of the instance. -/
theorem claim_C5 (key : String) (pro : Bool) (t : Transport)
    (method path : String) (payload : Dict) :
    (RequestsAdapter.request (Adapter.init key pro) t method path payload).sent.url
      = constructionBaseURL pro ++ ("v2" ++ path) ∧
    (AiohttpAdapter.request (Adapter.init key pro) t method path payload).sent.url
      = constructionBaseURL pro ++ ("v2" ++ path) :=
  ⟨rfl, rfl⟩

/-- C6 (counterexample): the claim promises a parameter container constructed
fresh per call and not shared across calls.  Calls that omit the payload
argument (such as `get_usage`) reuse the one default dict created at function
definition time: starting from its fresh contents (the empty dict), one call
leaves the injected auth key in it, so the container the next omitted-payload
call starts with is not empty — the state of the first call is observable in
the second. -/
theorem claim_C6_counterexample :
    (RequestsAdapter.get_usage (Adapter.init "SECRET" false) stubOkT []).payloadAfter
      = [("auth_key", "SECRET")] ∧
    ((RequestsAdapter.get_usage (Adapter.init "SECRET" false) stubOkT []).payloadAfter).isEmpty
      = false ∧
    (AiohttpAdapter.get_usage (Adapter.init "SECRET" false) stubOkT []).payloadAfter
      = [("auth_key", "SECRET")] ∧
    ((AiohttpAdapter.get_usage (Adapter.init "SECRET" false) stubOkT []).payloadAfter).isEmpty
      = false :=
  ⟨rfl, rfl, rfl, rfl⟩

/-- C6 (amended): when the caller supplies a parameters mapping, the
dispatched container is computed per call from that mapping; but when the
payload argument is omitted, the single shared default container is used, and
after one such call it holds the injected auth key — the contents the next
omitted-payload call starts from. -/
theorem claim_C6_amended (key : String) (pro : Bool) (t : Transport)
    (method path : String) (payload : Dict) :
    (RequestsAdapter.request (Adapter.init key pro) t method path payload).sent.params
      = dictSet payload "auth_key" key ∧
    (RequestsAdapter.get_usage (Adapter.init key pro) t []).payloadAfter
      = [("auth_key", key)] ∧
    dictGet (RequestsAdapter.get_usage (Adapter.init key pro) t []).payloadAfter "auth_key"
      = some key ∧
    (AiohttpAdapter.request (Adapter.init key pro) t method path payload).sent.params
      = dictSet payload "auth_key" key ∧
    (AiohttpAdapter.get_usage (Adapter.init key pro) t []).payloadAfter
      = [("auth_key", key)] ∧
    dictGet (AiohttpAdapter.get_usage (Adapter.init key pro) t []).payloadAfter "auth_key"
      = some key :=
  ⟨rfl, rfl, rfl, rfl, rfl, rfl⟩

/-- C7: `get_translated_text` on either adapter issues a POST to the
translate endpoint, and when the response is 2xx with a decoded body whose
`translations` sequence has a first element with a text, that text is
returned. -/
theorem claim_C7 (key : String) (pro : Bool) (t : Transport) (payload : Dict)
    (body txt : Json)
    (hresp : t (sentOf key pro "POST" "/translate" payload)
        = { status := 200, jsonBody := some body })
    (htext : firstTranslationText body = some txt) :
    (RequestsAdapter.get_translated_text (Adapter.init key pro) t payload).sent.method
      = "POST" ∧
    (RequestsAdapter.get_translated_text (Adapter.init key pro) t payload).sent.url
      = constructionBaseURL pro ++ ("v2" ++ "/translate") ∧
    (RequestsAdapter.get_translated_text (Adapter.init key pro) t payload).result
      = Except.ok txt ∧
    (AiohttpAdapter.get_translated_text (Adapter.init key pro) t payload).sent.method
      = "POST" ∧
    (AiohttpAdapter.get_translated_text (Adapter.init key pro) t payload).sent.url
      = constructionBaseURL pro ++ ("v2" ++ "/translate") ∧
    (AiohttpAdapter.get_translated_text (Adapter.init key pro) t payload).result
      = Except.ok txt := by
  have hout : (RequestsAdapter.request (Adapter.init key pro) t "POST" "/translate" payload).outcome
      = Except.ok (some body) := by
    rw [requests_outcome_eq, hresp]
    exact respOutcome_of_2xx _ (le_refl 200) (by norm_num : (200 : Nat) < 300)
  have hout2 : (AiohttpAdapter.request (Adapter.init key pro) t "POST" "/translate" payload).outcome
      = Except.ok (some body) := by
    rw [aiohttp_outcome_eq, hresp]
    exact respOutcome_of_2xx _ (le_refl 200) (by norm_num : (200 : Nat) < 300)
  refine ⟨rfl, rfl, ?_, rfl, rfl, ?_⟩
  · show (match (RequestsAdapter.request (Adapter.init key pro) t "POST" "/translate" payload).outcome with
          | Except.error e => Except.error e
          | Except.ok none => Except.error PyError.accessError
          | Except.ok (some d) =>
              (pySubscript d "translations").bind (fun x =>
                (pyIndex x 0).bind (fun y => pySubscript y "text"))) = Except.ok txt
    rw [hout]
    exact subscript_chain_of_firstTranslationText body txt htext
  · show (match (AiohttpAdapter.request (Adapter.init key pro) t "POST" "/translate" payload).outcome with
          | Except.error e => Except.error e
          | Except.ok none => Except.error PyError.accessError
          | Except.ok (some d) =>
              (pySubscript d "translations").bind (fun x =>
                (pyIndex x 0).bind (fun y => pySubscript y "text"))) = Except.ok txt
    rw [hout2]
    exact subscript_chain_of_firstTranslationText body txt htext

/-- C7 (witness): against the stub response of the specification, both
adapters POST and return the string Hallo. -/
theorem claim_C7_witness :
    (RequestsAdapter.get_translated_text (Adapter.init "KEY" false) stubTranslateT
      [("text", "Hello"), ("target_lang", "DE")]).sent.method = "POST" ∧
    (RequestsAdapter.get_translated_text (Adapter.init "KEY" false) stubTranslateT
      [("text", "Hello"), ("target_lang", "DE")]).result = Except.ok (Json.str "Hallo") ∧
    (AiohttpAdapter.get_translated_text (Adapter.init "KEY" false) stubTranslateT
      [("text", "Hello"), ("target_lang", "DE")]).result = Except.ok (Json.str "Hallo") := by
  have h := claim_C7 "KEY" false stubTranslateT [("text", "Hello"), ("target_lang", "DE")]
    stubTranslationBody (Json.str "Hallo") rfl rfl
  exact ⟨h.1, h.2.2.1, h.2.2.2.2.2⟩

/-- C8: two runs differing only in the tier flag construct URLs that differ
exactly in the host, pro against free, while method, header set and the full
parameter set are identical between the two runs, on either adapter. -/
theorem claim_C8 (key : String) (t : Transport) (method path : String) (payload : Dict) :
    (RequestsAdapter.request (Adapter.init key true) t method path payload).sent.url
      = "https://" ++ "api.deepl.com" ++ "/" ++ ("v2" ++ path) ∧
    (RequestsAdapter.request (Adapter.init key false) t method path payload).sent.url
      = "https://" ++ "api-free.deepl.com" ++ "/" ++ ("v2" ++ path) ∧
    (RequestsAdapter.request (Adapter.init key true) t method path payload).sent.method
      = (RequestsAdapter.request (Adapter.init key false) t method path payload).sent.method ∧
    (RequestsAdapter.request (Adapter.init key true) t method path payload).sent.headers
      = (RequestsAdapter.request (Adapter.init key false) t method path payload).sent.headers ∧
    (RequestsAdapter.request (Adapter.init key true) t method path payload).sent.params
      = (RequestsAdapter.request (Adapter.init key false) t method path payload).sent.params ∧
    (AiohttpAdapter.request (Adapter.init key true) t method path payload).sent.url
      = "https://" ++ "api.deepl.com" ++ "/" ++ ("v2" ++ path) ∧
    (AiohttpAdapter.request (Adapter.init key false) t method path payload).sent.url
      = "https://" ++ "api-free.deepl.com" ++ "/" ++ ("v2" ++ path) ∧
    (AiohttpAdapter.request (Adapter.init key true) t method path payload).sent.method
      = (AiohttpAdapter.request (Adapter.init key false) t method path payload).sent.method ∧
    (AiohttpAdapter.request (Adapter.init key true) t method path payload).sent.headers
      = (AiohttpAdapter.request (Adapter.init key false) t method path payload).sent.headers ∧
    (AiohttpAdapter.request (Adapter.init key true) t method path payload).sent.params
      = (AiohttpAdapter.request (Adapter.init key false) t method path payload).sent.params :=
  ⟨rfl, rfl, rfl, rfl, rfl, rfl, rfl, rfl, rfl, rfl⟩

/-- C9: either adapter mutates the caller dict in place: whatever the call
outcome, afterwards the caller dict binds the auth key to the configured
authentication key (overwriting any auth key entry the caller had supplied)
and leaves every other key unchanged. -/
theorem claim_C9 (key : String) (pro : Bool) (t : Transport)
    (method path : String) (payload : Dict) :
    dictGet (RequestsAdapter.request (Adapter.init key pro) t method path payload).payloadAfter
      "auth_key" = some key ∧
    (∀ k2, k2 ≠ "auth_key" →
      dictGet (RequestsAdapter.request (Adapter.init key pro) t method path payload).payloadAfter k2
        = dictGet payload k2) ∧
    dictGet (AiohttpAdapter.request (Adapter.init key pro) t method path payload).payloadAfter
      "auth_key" = some key ∧
    (∀ k2, k2 ≠ "auth_key" →
      dictGet (AiohttpAdapter.request (Adapter.init key pro) t method path payload).payloadAfter k2
        = dictGet payload k2) := by
  refine ⟨?_, ?_, ?_, ?_⟩
  · exact dictGet_dictSet_self payload "auth_key" key
  · intro k2 hk2
    exact dictGet_dictSet_of_ne payload "auth_key" key k2 hk2
  · exact dictGet_dictSet_self payload "auth_key" key
  · intro k2 hk2
    exact dictGet_dictSet_of_ne payload "auth_key" key k2 hk2

/-- C9 (witness): a caller dict that already bound the auth key to another
value holds the configured key afterwards, and its other entry is kept, even
though the call raised (status 400). -/
theorem claim_C9_witness :
    dictGet (RequestsAdapter.request (Adapter.init "REAL" false) stub400ListT
      "POST" "/translate" [("auth_key", "OLD"), ("text", "hi")]).payloadAfter "auth_key"
      = some "REAL" ∧
    dictGet (RequestsAdapter.request (Adapter.init "REAL" false) stub400ListT
      "POST" "/translate" [("auth_key", "OLD"), ("text", "hi")]).payloadAfter "text"
      = some "hi" := by
  have h := claim_C9 "REAL" false stub400ListT "POST" "/translate"
    [("auth_key", "OLD"), ("text", "hi")]
  refine ⟨h.1, ?_⟩
  rw [h.2.1 "text" (by decide)]
  rfl

/-- C10: on either adapter, a non-2xx response whose body decodes to a
non-empty JSON list makes the message extraction call a mapping-only
accessor on a list, so `request` fails with the generic attribute-access
error and no typed error of the taxonomy is raised. -/
theorem claim_C10 (key : String) (pro : Bool) (t : Transport)
    (method path : String) (payload : Dict) (x : Json) (xs : List Json)
    (hs : ¬ (200 ≤ (t (sentOf key pro method path payload)).status ∧
             (t (sentOf key pro method path payload)).status < 300))
    (hb : (t (sentOf key pro method path payload)).jsonBody = some (Json.arr (x :: xs))) :
    (RequestsAdapter.request (Adapter.init key pro) t method path payload).outcome
      = Except.error PyError.attributeError ∧
    raisesTypedError (RequestsAdapter.request (Adapter.init key pro) t method path payload).outcome
      = false ∧
    (AiohttpAdapter.request (Adapter.init key pro) t method path payload).outcome
      = Except.error PyError.attributeError ∧
    raisesTypedError (AiohttpAdapter.request (Adapter.init key pro) t method path payload).outcome
      = false := by
  have h1 : (RequestsAdapter.request (Adapter.init key pro) t method path payload).outcome
      = Except.error PyError.attributeError := by
    rw [requests_outcome_eq, respOutcome_of_list_body _ hs x xs hb]
  have h2 : (AiohttpAdapter.request (Adapter.init key pro) t method path payload).outcome
      = Except.error PyError.attributeError := by
    rw [aiohttp_outcome_eq, respOutcome_of_list_body _ hs x xs hb]
  refine ⟨h1, ?_, h2, ?_⟩
  · rw [h1]
    rfl
  · rw [h2]
    rfl

/-- C10 (witness): a 404 whose body decodes to a one-element JSON list makes
both adapters fail with the attribute-access error. -/
theorem claim_C10_witness :
    (RequestsAdapter.request (Adapter.init "KEY" false) stub404ListT
      "POST" "/translate" []).outcome = Except.error PyError.attributeError ∧
    (AiohttpAdapter.request (Adapter.init "KEY" false) stub404ListT
      "POST" "/translate" []).outcome = Except.error PyError.attributeError := by
  have h := claim_C10 "KEY" false stub404ListT "POST" "/translate" []
    (Json.str "e") [] (by decide) rfl
  exact ⟨h.1, h.2.2.1⟩
